import Mathlib

/-!
Verification development for the registration / profile-edit form
validation schemas (`src/utils/schemas/registrationForm.ts` and the
edit-profile schema file).

The Yup schema chains are embedded as Lean functions from form values to
`Option String`: `none` means the field validates, `some msg` is the first
failing test's message (tests run in the order they are declared on the
chain, which is the order Formik reports them in).

JavaScript `File` objects are opaque records with a `size` (bytes) and a
`type` (MIME string); form fields that may hold a file, a string reference,
null, or anything else are embedded as small inductive types with an
explicit `other` constructor for the "neither string nor File" shapes.
Dates are embedded as year/month/day triples; an unparseable date input
(JavaScript's Invalid Date) and an absent one (null/undefined) are separate
constructors, since Yup's `typeError` and `required` distinguish them and
JS truthiness treats an Invalid Date object as truthy.
-/

/-- A calendar date, standing in for a JavaScript `Date`'s year/month/day. -/
structure SimpleDate where
  year : Int
  month : Int
  day : Int
deriving DecidableEq, Repr

/-- Date comparison (year, then month, then day), as JS `Date` ordering. -/
def SimpleDate.leb (a b : SimpleDate) : Bool :=
  if a.year ≠ b.year then a.year < b.year
  else if a.month ≠ b.month then a.month < b.month
  else a.day ≤ b.day

/-- A date-valued form field: absent (null/undefined), an unparseable
Invalid Date, or a parsed date. -/
inductive DateInput where
  | missing : DateInput
  | invalid : DateInput
  | valid (d : SimpleDate) : DateInput
deriving DecidableEq, Repr

/-- Modelled from the spec: `calculateAge` from `../ageCalculator` is not
among the given sources. Per the spec it is the calendar-year difference,
adjusted down by one when the `asOf` date has not yet reached the birth
month/day in the current year. -/
def calculateAge (asOf dob : SimpleDate) : Int :=
  if asOf.month > dob.month ∨ (asOf.month = dob.month ∧ asOf.day ≥ dob.day) then
    asOf.year - dob.year
  else
    asOf.year - dob.year - 1

/-- Modelled from the spec: `FILE_SIZE_LIMIT` from `../constants` is not
among the given sources; the spec fixes it at 2 MB. -/
def FILE_SIZE_LIMIT : Nat := 2 * 1024 * 1024

/-- Modelled from the spec: `IMAGE_SUPPORTED_FORMATS` from `../constants`
is not among the given sources; the spec's allow-list is JPEG, JPG, GIF,
PNG (as MIME type strings). -/
def IMAGE_SUPPORTED_FORMATS : List String :=
  ["image/jpeg", "image/jpg", "image/gif", "image/png"]

/-- Modelled from the spec: `GENERAL_SUPPORTED_FORMATS` from `../constants`
is not among the given sources; the spec's allow-list is JPEG, JPG, GIF,
PNG, PDF, DOC, DOCX, TXT (as MIME type strings). -/
def GENERAL_SUPPORTED_FORMATS : List String :=
  ["image/jpeg", "image/jpg", "image/gif", "image/png",
   "application/pdf", "application/msword",
   "application/vnd.openxmlformats-officedocument.wordprocessingml.document",
   "text/plain"]

/-- Value of the `profilePic` field: null/undefined, a `File` (size in
bytes, MIME type), a string, or any other JS value. -/
inductive PicVal where
  | null : PicVal
  | file (size : Nat) (type : String) : PicVal
  | str (s : String) : PicVal
  | other : PicVal
deriving DecidableEq, Repr

/-- An element of a proof-file list: a `File`, a string reference, or any
other JS value. -/
inductive ProofElem where
  | file (size : Nat) (type : String) : ProofElem
  | str (s : String) : ProofElem
  | other : ProofElem
deriving DecidableEq, Repr

/-- JS `trim` on a character list: drop whitespace at both ends. -/
def trimChars (l : List Char) : List Char :=
  ((l.dropWhile Char.isWhitespace).reverse.dropWhile Char.isWhitespace).reverse

/-- JS `String.prototype.trim`, embedded over the character list. -/
def jsTrim (s : String) : String := String.mk (trimChars s.toList)

/-- Regex class `[a-z]`. -/
def isLowerAlpha (c : Char) : Bool := 'a' ≤ c && c ≤ 'z'

/-- Regex class `\d`, i.e. `[0-9]`. -/
def isDigitCh (c : Char) : Bool := '0' ≤ c && c ≤ '9'

/-- Regex class `[A-Za-z0-9-]` from the school-id pattern. -/
def isIdChar (c : Char) : Bool :=
  ('A' ≤ c && c ≤ 'Z') || isLowerAlpha c || isDigitCh c || c == '-'

/-- The `is-mixed` test body of `usernameSchema`: the whole value matches
`[a-z\d]` five times, and has at least one `[a-z]` and one `\d`. -/
def usernameMixedTest (v : String) : Bool :=
  (v.toList.length == 5 && v.toList.all (fun c => isLowerAlpha c || isDigitCh c))
    && v.toList.any isLowerAlpha && v.toList.any isDigitCh

/-- Schema `usernameSchema` (registrationForm.ts): required, length
exactly 5, then the `is-mixed` test. -/
def usernameSchema (v : String) : Option String :=
  if v = "" then some "Username is required"
  else if v.toList.length ≠ 5 then some "Username must be exactly 5 characters"
  else if usernameMixedTest v then none
  else some "Username must contain at least one letter and one digit and only lowercase letters and digits are allowed"

/-- Value of the `school` block of the form: its four fields. `name` and
`id` are plain strings, `proof` is a nullable list, `expiry` a nullable
date. The whole block may itself be null (`Option SchoolVal`). -/
structure SchoolVal where
  name : String
  id : String
  proof : Option (List ProofElem)
  expiry : DateInput
deriving DecidableEq, Repr

namespace Registration

/-- The registration `imageFileSchema`: nullable, then tests `fileType`
("Not a file" unless null or a `File`), `fileSize`, `fileFormat`. -/
def imageFileSchema : PicVal → Option String
  | .null => none
  | .file size ty =>
      if size ≤ FILE_SIZE_LIMIT then
        if IMAGE_SUPPORTED_FORMATS.contains ty then none
        else some "Unsupported file format (only JPG, JPEG, GIF, PNG)"
      else some "File too large (max 2MB)"
  | .str _ => some "Not a file"
  | .other => some "Not a file"

/-- The registration `proofFileSchema` `fileType` element check:
`file instanceof File`. -/
def proofElemIsFile : ProofElem → Bool
  | .file _ _ => true
  | _ => false

/-- The registration `proofFileSchema` `fileSize` element check:
`file.size <= FILE_SIZE_LIMIT`; on a non-File element `file.size` is
undefined and the comparison is false. -/
def proofElemSizeOk : ProofElem → Bool
  | .file size _ => size ≤ FILE_SIZE_LIMIT
  | _ => false

/-- The registration `proofFileSchema` `fileFormat` element check:
`GENERAL_SUPPORTED_FORMATS.includes(file.type)`; on a non-File element
`file.type` is undefined and never in the list. -/
def proofElemFormatOk : ProofElem → Bool
  | .file _ ty => GENERAL_SUPPORTED_FORMATS.contains ty
  | _ => false

/-- The registration `proofFileSchema`: nullable array, then tests
`fileType` (`every` element a `File`), `fileSize`, `fileFormat`. -/
def proofFileSchema : Option (List ProofElem) → Option String
  | none => none
  | some l =>
      if l.all proofElemIsFile then
        if l.all proofElemSizeOk then
          if l.all proofElemFormatOk then none
          else some "Unsupported file format (only JPG, JPEG, GIF, PNG, PDF, DOC, DOCX, TXT)"
        else some "File too large (max 2MB)"
      else some "Not a file"

/-- The `userType` chain of `createRegistrationValidationSchema`:
`required`, the `invalid-user-type` test, then two `when("dob", ...)`
clauses adding `notOneOf` checks. Both `when` conditions return false for
an absent dob (`!dob`), and for an Invalid Date `calculateAge` is NaN so
both NaN comparisons are false: the age checks are skipped in either
case. -/
def validateUserType (today : SimpleDate) (userType : String) (dob : DateInput) : Option String :=
  if userType = "" then some "User type is required"
  else if ¬(userType = "student" ∨ userType = "general" ∨ userType = "pension") then
    some "Invalid user type"
  else
    match dob with
    | .valid d =>
        if calculateAge today d < 60 then
          if userType = "pension" then some "Age is less than 60 for Pension User." else none
        else
          if userType = "student" ∨ userType = "general" then
            some "Type cannot be \"Student\" or \"General\" for an age of 60 or older."
          else none
    | _ => none

/-- The `dob` chain: `Yup.date().required().typeError("Invalid date")
.max(new Date(), ...)`; `today` stands for the `new Date()` captured when
the schema is built. -/
def validateDob (today : SimpleDate) : DateInput → Option String
  | .missing => some "Date of birth is required"
  | .invalid => some "Invalid date"
  | .valid d => if d.leb today then none else some "Date of birth cannot be in the future"

/-- The `schoolSchema` `name` field: `.trim().min(2).required()`. The
`min` test is declared before `required` and also fails on the empty
string, so it is the first reported failure whenever the trimmed length
is below 2. -/
def schoolNameOk (name : String) : Bool :=
  2 ≤ (jsTrim name).toList.length

/-- The `schoolSchema` `id` field: `.trim().matches(/[A-Za-z0-9-]+/ anchored)
.required()`; the pattern does not exclude the empty string, so the
`matches` test is the first reported failure for any invalid id. -/
def schoolIdOk (id : String) : Bool :=
  let t := (jsTrim id).toList
  !t.isEmpty && t.all isIdChar

/-- Presence of a proof list in the sense of Yup's `array().required()`,
which rejects null/undefined and the empty array; also JS truthiness of
`proof && proof.length` in the `school-conditional` test. -/
def proofPresent : Option (List ProofElem) → Bool
  | some (_ :: _) => true
  | _ => false

/-- The `schoolSchema` object applied to a present school block, fields in
declaration order: `name`, `id`, `proof` (`proofFileSchema.required()`),
`expiry` (`required`/`typeError`/`min(new Date())`, `today` standing for
that `new Date()`). -/
def schoolSchemaCheck (today : SimpleDate) (s : SchoolVal) : Option String :=
  if schoolNameOk s.name then
    if schoolIdOk s.id then
      if proofPresent s.proof then
        match proofFileSchema s.proof with
        | some e => some e
        | none =>
            match s.expiry with
            | .missing => some "Expiry date is required"
            | .invalid => some "Invalid date"
            | .valid d =>
                if today.leb d then none
                else some "Expiry date cannot be in the past"
      else some "Proof is required"
    else some "ID can only contain letters, numbers, and hyphens"
  else some "School/ University name must be at least 2 characters"

/-- The `school-conditional` test applied to a present school block: passes
unless `name || id || (proof && proof.length) || expiry` is truthy (a Date
object, valid or not, is truthy). -/
def schoolConditionalTest (s : SchoolVal) : Option String :=
  if s.name ≠ "" ∨ s.id ≠ "" ∨ proofPresent s.proof ∨ s.expiry ≠ DateInput.missing then
    some "School details are only allowed for student users"
  else none

/-- The `school` chain of `createRegistrationValidationSchema`: under
`when("userType", ...)`, a student gets `schoolSchema.required(...)`,
anyone else gets `Yup.mixed()` with the `school-conditional` test, which
passes a null/undefined block outright. -/
def validateSchool (today : SimpleDate) (userType : String) (school : Option SchoolVal) : Option String :=
  if userType = "student" then
    match school with
    | none => some "School details are required"
    | some s => schoolSchemaCheck today s
  else
    match school with
    | none => none
    | some s => schoolConditionalTest s

/-- The `nationalIdProof` chain: `proofFileSchema` tests first (in
declaration order), then the `valid-for-pensioners` test (which passes on
null/undefined and the empty array), then `required` added by
`when("userType", { is: "pension" })`, where `array().required()` rejects
null/undefined and the empty array. -/
def validateNationalIdProof (userType : String) (v : Option (List ProofElem)) : Option String :=
  match proofFileSchema v with
  | some e => some e
  | none =>
      if v = none ∨ v = some [] then
        if userType = "pension" then some "National ID Proof is required" else none
      else
        if userType = "pension" then none
        else some "National ID Proof is only allowed for pensioners."

/-- The `registrationFormType` record (the fields the validated claims
use; `address` is flattened). -/
structure registrationFormType where
  profilePic : PicVal
  fullName : String
  username : String
  email : String
  password : String
  confirmPassword : String
  addressLine1 : String
  addressLine2 : String
  city : String
  zipCode : String
  phone : String
  userType : String
  dob : DateInput
  nationalId : String
  school : Option SchoolVal
  nationalIdProof : Option (List ProofElem)
deriving DecidableEq, Repr

/-- The exported `registrationFormInitialValues` object. -/
def registrationFormInitialValues : registrationFormType :=
  { profilePic := .null, fullName := "", username := "", email := "", password := "",
    confirmPassword := "", addressLine1 := "", addressLine2 := "", city := "",
    zipCode := "", phone := "", userType := "general", dob := .missing, nationalId := "",
    school := some { name := "", id := "", proof := none, expiry := .missing },
    nationalIdProof := none }

end Registration

namespace EditProfile

/-- The edit-profile `imageFileSchema`: nullable, then tests `fileSize` and
`fileFormat`, each passing a string through; there is no `fileType` test,
and a value that is neither null, a `File`, nor a string fails the
`fileSize` test. -/
def imageFileSchema : PicVal → Option String
  | .null => none
  | .file size ty =>
      if size ≤ FILE_SIZE_LIMIT then
        if IMAGE_SUPPORTED_FORMATS.contains ty then none
        else some "Unsupported file format (only JPG, JPEG, GIF, PNG)"
      else some "File too large (max 2MB)"
  | .str _ => none
  | .other => some "File too large (max 2MB)"

/-- A JS `Date` built from a stored date string by `new Date(s)`; kept
opaque so that the edit-form initialization preserves the source value. -/
structure JSDate where
  raw : String
deriving DecidableEq, Repr

/-- JS `new Date(s)` as used by `setDefaultValuesInEditForm`. -/
def newDate (s : String) : JSDate := ⟨s⟩

/-- Modelled from the spec: the `Profile` record type consumed by
`setDefaultValuesInEditForm` is not among the given sources; per the spec
it is the ExistingProfile record with the listed nullable columns
(`student_proof_url` and `national_id_proof_url` are stored reference
lists). -/
structure Profile where
  avatar_url : Option String
  full_name : Option String
  user_name : Option String
  email : Option String
  address_line1 : Option String
  address_line2 : Option String
  city : Option String
  zip_code : Option String
  phone_number : Option String
  user_type : Option String
  date_of_birth : Option String
  national_id : Option String
  school_name : Option String
  school_id : Option String
  student_proof_url : Option (List String)
  school_expiry : Option String
  national_id_proof_url : Option (List String)
deriving DecidableEq, Repr

/-- JS `v || dflt` on a nullable string: null, undefined and the empty
string are falsy. -/
def jsOrString (v : Option String) (dflt : String) : String :=
  match v with
  | some s => if s = "" then dflt else s
  | none => dflt

/-- JS `v || null` on a nullable string. -/
def jsOrNull (v : Option String) : Option String :=
  match v with
  | some s => if s = "" then none else some s
  | none => none

/-- JS `v ? new Date(v) : null` on a nullable date string. -/
def jsDateOrNull (v : Option String) : Option JSDate :=
  match v with
  | some s => if s = "" then none else some (newDate s)
  | none => none

/-- The `editFormType` record (the `school` block is flattened). The
`fullName` and `username` fields are `Option String` because the source
assigns `data.full_name!` and `data.user_name!`: the TypeScript non-null
assertion passes a missing value through unchanged at runtime. -/
structure EditFormValues where
  profilePic : Option String
  fullName : Option String
  username : Option String
  email : String
  addressLine1 : String
  addressLine2 : String
  city : String
  zipCode : String
  phone : String
  userType : String
  dob : Option JSDate
  nationalId : String
  schoolName : String
  schoolId : String
  schoolProof : Option (List String)
  schoolExpiry : Option JSDate
  nationalIdProof : Option (List String)
deriving DecidableEq, Repr

/-- Function `setDefaultValuesInEditForm`: builds the edit-form initial
values from a `Profile` and the signed-in user's email. `student_proof_url
|| null` and `national_id_proof_url || null` are the identity on a
nullable array (a JS array, even empty, is truthy). -/
def setDefaultValuesInEditForm (data : Profile) (userEmail : String) : EditFormValues :=
  { profilePic := jsOrNull data.avatar_url
    fullName := data.full_name
    username := data.user_name
    email := jsOrString data.email userEmail
    addressLine1 := jsOrString data.address_line1 ""
    addressLine2 := jsOrString data.address_line2 ""
    city := jsOrString data.city ""
    zipCode := jsOrString data.zip_code ""
    phone := jsOrString data.phone_number ""
    userType := jsOrString data.user_type "general"
    dob := jsDateOrNull data.date_of_birth
    nationalId := jsOrString data.national_id ""
    schoolName := jsOrString data.school_name ""
    schoolId := jsOrString data.school_id ""
    schoolProof := data.student_proof_url
    schoolExpiry := jsDateOrNull data.school_expiry
    nationalIdProof := data.national_id_proof_url }

end EditProfile
/-- Helper: the username chain passes exactly when the `is-mixed` test
holds (the required and length tests are subsumed by it). -/
lemma usernameSchema_eq_none (v : String) :
    usernameSchema v = none ↔ usernameMixedTest v = true := by
  unfold usernameSchema
  split_ifs with h1 h2 h3
  · subst h1; simp [usernameMixedTest]
  · simp only [usernameMixedTest, Bool.and_eq_true, beq_iff_eq]
    constructor
    · intro h; cases h
    · intro hm; exact absurd hm.1.1.1 h2
  · simp [h3]
  · simp [h3]

/-- C6: the username validator passes a value if and only if it is present,
exactly 5 characters long, consists only of lowercase letters and digits,
and contains at least one letter and at least one digit; it accepts
"ab3de" and rejects "ABCDE", "abcd", and "12345". -/
theorem username_rule :
    (∀ v : String, usernameSchema v = none ↔
       (v.toList.length = 5 ∧ (∀ c ∈ v.toList, isLowerAlpha c ∨ isDigitCh c) ∧
        (∃ c ∈ v.toList, isLowerAlpha c) ∧ (∃ c ∈ v.toList, isDigitCh c))) ∧
    usernameSchema "ab3de" = none ∧ usernameSchema "ABCDE" ≠ none ∧
    usernameSchema "abcd" ≠ none ∧ usernameSchema "12345" ≠ none := by
  refine ⟨?_, by decide, by decide, by decide, by decide⟩
  intro v
  rw [usernameSchema_eq_none]
  simp only [usernameMixedTest, Bool.and_eq_true, beq_iff_eq, List.all_eq_true,
    List.any_eq_true, Bool.or_eq_true]
  tauto

/-- Witness for C6 at a concrete accepted username. -/
theorem username_rule_witness : usernameSchema "ab3de" = none := username_rule.2.1

/-- C7: the profilePic image rule passes null/absent; a binary file passes
iff its size is at most 2 MB and its MIME type is in the image allow-list;
a 3 MB PNG fails the size check and a 1 MB BMP fails the format check. -/
theorem profilePic_rule :
    Registration.imageFileSchema PicVal.null = none ∧
    (∀ size ty, Registration.imageFileSchema (PicVal.file size ty) = none ↔
       (size ≤ FILE_SIZE_LIMIT ∧ ty ∈ IMAGE_SUPPORTED_FORMATS)) ∧
    Registration.imageFileSchema (PicVal.file (3 * 1024 * 1024) "image/png") =
      some "File too large (max 2MB)" ∧
    Registration.imageFileSchema (PicVal.file (1024 * 1024) "image/bmp") =
      some "Unsupported file format (only JPG, JPEG, GIF, PNG)" := by
  refine ⟨rfl, ?_, by decide, by decide⟩
  intro size ty
  simp only [Registration.imageFileSchema]
  split_ifs with h1 h2 <;>
    simp_all [List.elem_iff]

/-- Witness for C7 at a concrete accepted file. -/
theorem profilePic_rule_witness :
    Registration.imageFileSchema (PicVal.file 1000 "image/png") = none :=
  (profilePic_rule.2.1 1000 "image/png").mpr (by decide)

/-- C5: the registration image rule fails any non-null value that is not a
binary file with "Not a file"; the edit rule accepts any string as a
pass-through; on null and on binary files the two rules agree. -/
theorem imageFile_variants_rule :
    (∀ v : PicVal, (v ≠ PicVal.null ∧ ∀ size ty, v ≠ PicVal.file size ty) →
       Registration.imageFileSchema v = some "Not a file") ∧
    (∀ s, EditProfile.imageFileSchema (PicVal.str s) = none) ∧
    Registration.imageFileSchema PicVal.null = EditProfile.imageFileSchema PicVal.null ∧
    (∀ size ty, Registration.imageFileSchema (PicVal.file size ty) =
       EditProfile.imageFileSchema (PicVal.file size ty)) := by
  refine ⟨?_, fun s => rfl, rfl, fun size ty => rfl⟩
  intro v ⟨hnull, hfile⟩
  cases v with
  | null => exact absurd rfl hnull
  | file size ty => exact absurd rfl (hfile size ty)
  | str s => rfl
  | other => rfl

/-- Witness for C5 at a concrete non-null, non-file, non-string value. -/
theorem imageFile_variants_rule_witness :
    Registration.imageFileSchema PicVal.other = some "Not a file" :=
  imageFile_variants_rule.1 PicVal.other
    ⟨fun h => PicVal.noConfusion h, fun _ _ h => PicVal.noConfusion h⟩

/-- C4 counterexample: a list holding a string reference is not accepted by
the registration proof-file rule; it fails with "Not a file", so "Not a
file" is not reserved for elements that are neither string nor file. -/
theorem proofFileList_claim_cex :
    Registration.proofFileSchema (some [ProofElem.str "uploads/ref.png"]) =
      some "Not a file" ∧
    Registration.proofFileSchema (some [ProofElem.str "uploads/ref.png"]) ≠ none :=
  ⟨by decide, by decide⟩

/-- C4 (amended): the registration proof-file rule accepts null/absent and
lists whose every element is a binary file of size at most 2 MB with an
allowed MIME type; a list with any non-file element (string references
included) fails with "Not a file"; an all-file list fails with "File too
large" when a file is oversized, and with "Unsupported file format" when
all sizes are fine but a MIME type is not allowed. -/
theorem proofFileList_rule :
    Registration.proofFileSchema none = none ∧
    (∀ l, (∀ e ∈ l, Registration.proofElemIsFile e ∧ Registration.proofElemSizeOk e ∧
            Registration.proofElemFormatOk e) →
       Registration.proofFileSchema (some l) = none) ∧
    (∀ l, (∃ e ∈ l, ¬ Registration.proofElemIsFile e) →
       Registration.proofFileSchema (some l) = some "Not a file") ∧
    (∀ l, (∀ e ∈ l, Registration.proofElemIsFile e) →
       (∃ e ∈ l, ¬ Registration.proofElemSizeOk e) →
       Registration.proofFileSchema (some l) = some "File too large (max 2MB)") ∧
    (∀ l, (∀ e ∈ l, Registration.proofElemIsFile e ∧ Registration.proofElemSizeOk e) →
       (∃ e ∈ l, ¬ Registration.proofElemFormatOk e) →
       Registration.proofFileSchema (some l) =
         some "Unsupported file format (only JPG, JPEG, GIF, PNG, PDF, DOC, DOCX, TXT)") := by
  refine ⟨rfl, ?_, ?_, ?_, ?_⟩
  · intro l h
    have h1 : l.all Registration.proofElemIsFile = true :=
      List.all_eq_true.mpr (fun e he => (h e he).1)
    have h2 : l.all Registration.proofElemSizeOk = true :=
      List.all_eq_true.mpr (fun e he => (h e he).2.1)
    have h3 : l.all Registration.proofElemFormatOk = true :=
      List.all_eq_true.mpr (fun e he => (h e he).2.2)
    simp [Registration.proofFileSchema, h1, h2, h3]
  · intro l ⟨e, he, hne⟩
    have h1 : l.all Registration.proofElemIsFile = false := by
      rw [← Bool.not_eq_true, List.all_eq_true]
      intro hall; exact hne (hall e he)
    simp [Registration.proofFileSchema, h1]
  · intro l h ⟨e, he, hne⟩
    have h1 : l.all Registration.proofElemIsFile = true :=
      List.all_eq_true.mpr (fun e he => h e he)
    have h2 : l.all Registration.proofElemSizeOk = false := by
      rw [← Bool.not_eq_true, List.all_eq_true]
      intro hall; exact hne (hall e he)
    simp [Registration.proofFileSchema, h1, h2]
  · intro l h ⟨e, he, hne⟩
    have h1 : l.all Registration.proofElemIsFile = true :=
      List.all_eq_true.mpr (fun e he => (h e he).1)
    have h2 : l.all Registration.proofElemSizeOk = true :=
      List.all_eq_true.mpr (fun e he => (h e he).2)
    have h3 : l.all Registration.proofElemFormatOk = false := by
      rw [← Bool.not_eq_true, List.all_eq_true]
      intro hall; exact hne (hall e he)
    simp [Registration.proofFileSchema, h1, h2, h3]

/-- Witness for C4 (amended) at a concrete accepted list. -/
theorem proofFileList_rule_witness :
    Registration.proofFileSchema (some [ProofElem.file 1000 "application/pdf"]) = none :=
  proofFileList_rule.2.1 [ProofElem.file 1000 "application/pdf"]
    (by intro e he; simp at he; subst he; exact ⟨by decide, by decide, by decide⟩)

/-- C1: with a present, valid dob of age below 60, userType "pension"
fails with "Age is less than 60 for Pension User." while "student" and
"general" pass; with age 60 or above, "student" and "general" fail while
"pension" passes; both age checks are skipped when dob is absent or
invalid. -/
theorem userType_age_rule (today d : SimpleDate) (ut : String) :
    (calculateAge today d < 60 →
       (Registration.validateUserType today "pension" (DateInput.valid d) =
          some "Age is less than 60 for Pension User." ∧
        Registration.validateUserType today "student" (DateInput.valid d) = none ∧
        Registration.validateUserType today "general" (DateInput.valid d) = none)) ∧
    (60 ≤ calculateAge today d →
       (Registration.validateUserType today "student" (DateInput.valid d) =
          some "Type cannot be \"Student\" or \"General\" for an age of 60 or older." ∧
        Registration.validateUserType today "general" (DateInput.valid d) =
          some "Type cannot be \"Student\" or \"General\" for an age of 60 or older." ∧
        Registration.validateUserType today "pension" (DateInput.valid d) = none)) ∧
    ((ut = "student" ∨ ut = "general" ∨ ut = "pension") →
       Registration.validateUserType today ut DateInput.missing = none ∧
       Registration.validateUserType today ut DateInput.invalid = none) := by
  refine ⟨fun hlt => ?_, fun hge => ?_, fun hut => ?_⟩
  · simp [Registration.validateUserType, hlt]
  · have h : ¬ calculateAge today d < 60 := not_lt.mpr hge
    simp [Registration.validateUserType, h]
  · rcases hut with h | h | h <;> subst h <;> exact ⟨rfl, rfl⟩

/-- Witness for C1 at concrete dates on both sides of the age cut. -/
theorem userType_age_rule_witness :
    Registration.validateUserType ⟨2026, 10, 11⟩ "pension" (DateInput.valid ⟨2000, 1, 1⟩) =
      some "Age is less than 60 for Pension User." ∧
    Registration.validateUserType ⟨2026, 10, 11⟩ "pension" (DateInput.valid ⟨1950, 1, 1⟩) =
      none ∧
    Registration.validateUserType ⟨2026, 10, 11⟩ "student" DateInput.missing = none :=
  ⟨((userType_age_rule ⟨2026, 10, 11⟩ ⟨2000, 1, 1⟩ "student").1 (by decide)).1,
   ((userType_age_rule ⟨2026, 10, 11⟩ ⟨1950, 1, 1⟩ "student").2.1 (by decide)).2.2,
   ((userType_age_rule ⟨2026, 10, 11⟩ ⟨2000, 1, 1⟩ "student").2.2 (Or.inl rfl)).1⟩

/-- C8: the dob rule fails when dob is absent, fails when it does not parse
as a date, fails when it lies in the future of the validation time, and
passes otherwise. -/
theorem dob_rule (today : SimpleDate) :
    Registration.validateDob today DateInput.missing = some "Date of birth is required" ∧
    Registration.validateDob today DateInput.invalid = some "Invalid date" ∧
    (∀ d, d.leb today = true →
       Registration.validateDob today (DateInput.valid d) = none) ∧
    (∀ d, d.leb today = false →
       Registration.validateDob today (DateInput.valid d) =
         some "Date of birth cannot be in the future") := by
  refine ⟨rfl, rfl, fun d h => ?_, fun d h => ?_⟩ <;>
    simp [Registration.validateDob, h]

/-- Witness for C8 at a concrete past and a concrete future date. -/
theorem dob_rule_witness :
    Registration.validateDob ⟨2026, 10, 11⟩ (DateInput.valid ⟨1990, 5, 1⟩) = none ∧
    Registration.validateDob ⟨2026, 10, 11⟩ (DateInput.valid ⟨2030, 1, 1⟩) =
      some "Date of birth cannot be in the future" :=
  ⟨(dob_rule ⟨2026, 10, 11⟩).2.2.1 ⟨1990, 5, 1⟩ (by decide),
   (dob_rule ⟨2026, 10, 11⟩).2.2.2 ⟨2030, 1, 1⟩ (by decide)⟩

/-- C10: for any non-student user type, a school block with empty name and
id, a null or empty proof list, and a null expiry produces no school
error; in particular the registration initial school block passes the
non-student school restriction. -/
theorem empty_school_passes (today : SimpleDate) (ut : String) (h : ut ≠ "student")
    (p : Option (List ProofElem)) (hp : p = none ∨ p = some []) :
    Registration.validateSchool today ut
      (some { name := "", id := "", proof := p, expiry := DateInput.missing }) = none ∧
    Registration.validateSchool today ut
      Registration.registrationFormInitialValues.school = none := by
  constructor
  · rcases hp with rfl | rfl <;>
      simp [Registration.validateSchool, Registration.schoolConditionalTest,
        Registration.proofPresent, h]
  · simp [Registration.validateSchool, Registration.schoolConditionalTest,
      Registration.proofPresent, Registration.registrationFormInitialValues, h]

/-- Witness for C10 at the concrete empty school block. -/
theorem empty_school_passes_witness :
    Registration.validateSchool ⟨2026, 1, 1⟩ "general"
      (some { name := "", id := "", proof := some [], expiry := DateInput.missing }) =
      none :=
  (empty_school_passes ⟨2026, 1, 1⟩ "general" (by decide) (some []) (Or.inr rfl)).1

/-- C3 counterexample: for a non-pension user a non-empty nationalIdProof
holding an oversized file fails with the file-size message, not with
"National ID Proof is only allowed for pensioners.". -/
theorem nationalIdProof_claim_cex :
    Registration.validateNationalIdProof "general"
      (some [ProofElem.file (3 * 1024 * 1024) "image/png"]) =
      some "File too large (max 2MB)" ∧
    Registration.validateNationalIdProof "general"
      (some [ProofElem.file (3 * 1024 * 1024) "image/png"]) ≠
      some "National ID Proof is only allowed for pensioners." :=
  ⟨by decide, by decide⟩

/-- C3 (amended): for userType "pension", nationalIdProof fails when empty
or absent and passes when a non-empty list passing the file checks; for
any other userType a non-empty list always fails, with "National ID Proof
is only allowed for pensioners." when the file checks pass, and an empty
or absent one passes. -/
theorem nationalIdProof_rule :
    (∀ v, (v = none ∨ v = some []) →
       Registration.validateNationalIdProof "pension" v =
         some "National ID Proof is required") ∧
    (∀ l, l ≠ [] → Registration.proofFileSchema (some l) = none →
       Registration.validateNationalIdProof "pension" (some l) = none) ∧
    (∀ ut l, ut ≠ "pension" → l ≠ [] → Registration.proofFileSchema (some l) = none →
       Registration.validateNationalIdProof ut (some l) =
         some "National ID Proof is only allowed for pensioners.") ∧
    (∀ ut l, ut ≠ "pension" → l ≠ [] →
       Registration.validateNationalIdProof ut (some l) ≠ none) ∧
    (∀ ut, ut ≠ "pension" →
       Registration.validateNationalIdProof ut none = none ∧
       Registration.validateNationalIdProof ut (some []) = none) := by
  refine ⟨?_, ?_, ?_, ?_, ?_⟩
  · rintro v (rfl | rfl) <;>
      simp [Registration.validateNationalIdProof, Registration.proofFileSchema]
  · intro l hne hok
    simp [Registration.validateNationalIdProof, hok, hne]
  · intro ut l hut hne hok
    simp [Registration.validateNationalIdProof, hok, hne, hut]
  · intro ut l hut hne
    cases hps : Registration.proofFileSchema (some l) with
    | some e => simp [Registration.validateNationalIdProof, hps]
    | none => simp [Registration.validateNationalIdProof, hps, hne, hut]
  · intro ut hut
    constructor <;>
      simp [Registration.validateNationalIdProof, Registration.proofFileSchema, hut]

/-- Witness for C3 (amended) at concrete values on both user types. -/
theorem nationalIdProof_rule_witness :
    Registration.validateNationalIdProof "pension" none =
      some "National ID Proof is required" ∧
    Registration.validateNationalIdProof "pension"
      (some [ProofElem.file 1000 "image/png"]) = none ∧
    Registration.validateNationalIdProof "general" none = none :=
  ⟨nationalIdProof_rule.1 none (Or.inl rfl),
   nationalIdProof_rule.2.1 [ProofElem.file 1000 "image/png"] (by decide) (by decide),
   (nationalIdProof_rule.2.2.2.2 "general" (by decide)).1⟩

/-- C2: for a non-student user type, a school block with any of name, id, a
non-empty proof, or a present expiry fails with "School details are only
allowed for student users", and an absent or empty block passes; for a
student, the school block passes exactly when the trimmed name has at
least 2 characters, the trimmed id is non-empty with only letters, digits
and hyphens, the proof list is present, non-empty and passes the file
checks, and the expiry is a valid date not before the validation date. -/
theorem school_rule :
    (∀ today ut s, ut ≠ "student" →
       ((s.name ≠ "" ∨ s.id ≠ "" ∨ Registration.proofPresent s.proof = true ∨
           s.expiry ≠ DateInput.missing) →
          Registration.validateSchool today ut (some s) =
            some "School details are only allowed for student users") ∧
       ((s.name = "" ∧ s.id = "" ∧ Registration.proofPresent s.proof = false ∧
           s.expiry = DateInput.missing) →
          Registration.validateSchool today ut (some s) = none) ∧
       Registration.validateSchool today ut none = none) ∧
    (∀ today s, Registration.validateSchool today "student" (some s) = none ↔
       (Registration.schoolNameOk s.name = true ∧
        Registration.schoolIdOk s.id = true ∧
        Registration.proofPresent s.proof = true ∧
        Registration.proofFileSchema s.proof = none ∧
        ∃ d, s.expiry = DateInput.valid d ∧ SimpleDate.leb today d = true)) := by
  constructor
  · intro today ut s h
    refine ⟨fun hd => ?_, fun he => ?_, ?_⟩
    · unfold Registration.validateSchool
      rw [if_neg h]
      show Registration.schoolConditionalTest s = _
      unfold Registration.schoolConditionalTest
      rw [if_pos hd]
    · have hc : ¬ (s.name ≠ "" ∨ s.id ≠ "" ∨ Registration.proofPresent s.proof = true ∨
          s.expiry ≠ DateInput.missing) := by
        push_neg
        exact ⟨he.1, he.2.1, by simp [he.2.2.1], he.2.2.2⟩
      unfold Registration.validateSchool
      rw [if_neg h]
      show Registration.schoolConditionalTest s = none
      unfold Registration.schoolConditionalTest
      rw [if_neg hc]
    · unfold Registration.validateSchool
      rw [if_neg h]
  · intro today s
    constructor
    · intro h
      replace h : Registration.schoolSchemaCheck today s = none := h
      unfold Registration.schoolSchemaCheck at h
      by_cases h1 : Registration.schoolNameOk s.name = true
      case neg => rw [if_neg h1] at h; cases h
      rw [if_pos h1] at h
      by_cases h2 : Registration.schoolIdOk s.id = true
      case neg => rw [if_neg h2] at h; cases h
      rw [if_pos h2] at h
      by_cases h3 : Registration.proofPresent s.proof = true
      case neg => rw [if_neg h3] at h; cases h
      rw [if_pos h3] at h
      cases h4 : Registration.proofFileSchema s.proof with
      | some e => rw [h4] at h; cases h
      | none =>
        rw [h4] at h
        cases h5 : s.expiry with
        | missing => rw [h5] at h; cases h
        | invalid => rw [h5] at h; cases h
        | valid d =>
          rw [h5] at h
          replace h : (if SimpleDate.leb today d = true then (none : Option String)
              else some "Expiry date cannot be in the past") = none := h
          by_cases h6 : SimpleDate.leb today d = true
          case neg => rw [if_neg h6] at h; cases h
          exact ⟨h1, h2, h3, rfl, d, rfl, h6⟩
    · rintro ⟨h1, h2, h3, h4, d, hd, hle⟩
      show Registration.schoolSchemaCheck today s = none
      unfold Registration.schoolSchemaCheck
      rw [if_pos h1, if_pos h2, if_pos h3, h4, hd]
      show (if SimpleDate.leb today d = true then (none : Option String)
          else some "Expiry date cannot be in the past") = none
      rw [if_pos hle]

/-- Witness for C2 at a concrete non-student rejection and a concrete
student acceptance. -/
theorem school_rule_witness :
    Registration.validateSchool ⟨2026, 1, 1⟩ "general"
      (some { name := "Uni", id := "", proof := none, expiry := DateInput.missing }) =
      some "School details are only allowed for student users" ∧
    Registration.validateSchool ⟨2026, 1, 1⟩ "student"
      (some { name := "Uni", id := "U-1", proof := some [ProofElem.file 1000 "image/png"],
              expiry := DateInput.valid ⟨2030, 1, 1⟩ }) = none :=
  ⟨((school_rule.1 ⟨2026, 1, 1⟩ "general"
      { name := "Uni", id := "", proof := none, expiry := DateInput.missing }
      (by decide)).1 (Or.inl (by decide))),
   ((school_rule.2 ⟨2026, 1, 1⟩
      { name := "Uni", id := "U-1", proof := some [ProofElem.file 1000 "image/png"],
        expiry := DateInput.valid ⟨2030, 1, 1⟩ }).mpr
      ⟨by decide, by decide, by decide, by decide, ⟨2030, 1, 1⟩, rfl, by decide⟩)⟩

/-- C9 counterexample: with a missing profile email, the edit-form
initialization sets email to the supplied user email, not to the empty
string or null that the defaulting rule of the claim prescribes. -/
theorem editForm_email_default_cex :
    (EditProfile.setDefaultValuesInEditForm
        { avatar_url := none, full_name := some "Jane Doe", user_name := some "ab3de",
          email := none, address_line1 := none, address_line2 := none, city := none,
          zip_code := none, phone_number := none, user_type := none,
          date_of_birth := none, national_id := none, school_name := none,
          school_id := none, student_proof_url := none, school_expiry := none,
          national_id_proof_url := none }
        "fallback@example.com").email = "fallback@example.com" ∧
    "fallback@example.com" ≠ "" :=
  ⟨rfl, by decide⟩

/-- C9 (amended): edit-form initialization maps each profile field 1:1
into the form values, preserving every present (non-empty) field value;
missing optional fields default to the empty string or null, except email,
which defaults to the supplied user email, and a missing user_type, which
defaults to "general"; full_name and user_name pass through unchanged. -/
theorem editForm_mapping_rule (data : EditProfile.Profile) (userEmail : String)
    (r : EditProfile.EditFormValues)
    (hr : r = EditProfile.setDefaultValuesInEditForm data userEmail) :
    ((∀ s, s ≠ "" → data.avatar_url = some s → r.profilePic = some s) ∧
     (data.avatar_url = none → r.profilePic = none)) ∧
    r.fullName = data.full_name ∧
    r.username = data.user_name ∧
    ((∀ s, s ≠ "" → data.email = some s → r.email = s) ∧
     (data.email = none → r.email = userEmail)) ∧
    ((∀ s, s ≠ "" → data.address_line1 = some s → r.addressLine1 = s) ∧
     (data.address_line1 = none → r.addressLine1 = "")) ∧
    ((∀ s, s ≠ "" → data.address_line2 = some s → r.addressLine2 = s) ∧
     (data.address_line2 = none → r.addressLine2 = "")) ∧
    ((∀ s, s ≠ "" → data.city = some s → r.city = s) ∧
     (data.city = none → r.city = "")) ∧
    ((∀ s, s ≠ "" → data.zip_code = some s → r.zipCode = s) ∧
     (data.zip_code = none → r.zipCode = "")) ∧
    ((∀ s, s ≠ "" → data.phone_number = some s → r.phone = s) ∧
     (data.phone_number = none → r.phone = "")) ∧
    ((∀ s, s ≠ "" → data.user_type = some s → r.userType = s) ∧
     (data.user_type = none → r.userType = "general")) ∧
    ((∀ s, s ≠ "" → data.date_of_birth = some s → r.dob = some (EditProfile.newDate s)) ∧
     (data.date_of_birth = none → r.dob = none)) ∧
    ((∀ s, s ≠ "" → data.national_id = some s → r.nationalId = s) ∧
     (data.national_id = none → r.nationalId = "")) ∧
    ((∀ s, s ≠ "" → data.school_name = some s → r.schoolName = s) ∧
     (data.school_name = none → r.schoolName = "")) ∧
    ((∀ s, s ≠ "" → data.school_id = some s → r.schoolId = s) ∧
     (data.school_id = none → r.schoolId = "")) ∧
    r.schoolProof = data.student_proof_url ∧
    ((∀ s, s ≠ "" → data.school_expiry = some s →
        r.schoolExpiry = some (EditProfile.newDate s)) ∧
     (data.school_expiry = none → r.schoolExpiry = none)) ∧
    r.nationalIdProof = data.national_id_proof_url := by
  subst hr
  refine ⟨⟨?_, ?_⟩, rfl, rfl, ⟨?_, ?_⟩, ⟨?_, ?_⟩, ⟨?_, ?_⟩, ⟨?_, ?_⟩, ⟨?_, ?_⟩,
    ⟨?_, ?_⟩, ⟨?_, ?_⟩, ⟨?_, ?_⟩, ⟨?_, ?_⟩, ⟨?_, ?_⟩, ⟨?_, ?_⟩, rfl, ⟨?_, ?_⟩, rfl⟩ <;>
    first
      | (intro s hs h
         simp [EditProfile.setDefaultValuesInEditForm, EditProfile.jsOrNull,
           EditProfile.jsOrString, EditProfile.jsDateOrNull, h, hs])
      | (intro h
         simp [EditProfile.setDefaultValuesInEditForm, EditProfile.jsOrNull,
           EditProfile.jsOrString, EditProfile.jsDateOrNull, h])

/-- Witness for C9 (amended) at a fully populated concrete profile. -/
theorem editForm_mapping_rule_witness :
    (EditProfile.setDefaultValuesInEditForm
        { avatar_url := some "a.png", full_name := some "Jane Doe",
          user_name := some "ab3de", email := some "jane@x.com",
          address_line1 := some "1 Rd", address_line2 := some "Apt 2",
          city := some "Metropolis", zip_code := some "1000",
          phone_number := some "+123", user_type := some "pension",
          date_of_birth := some "1950-01-01", national_id := some "NID",
          school_name := some "Uni", school_id := some "U-1",
          student_proof_url := some ["p.png"], school_expiry := some "2030-01-01",
          national_id_proof_url := some ["n.png"] }
        "u@x.com").email = "jane@x.com" :=
  ((editForm_mapping_rule
      { avatar_url := some "a.png", full_name := some "Jane Doe",
        user_name := some "ab3de", email := some "jane@x.com",
        address_line1 := some "1 Rd", address_line2 := some "Apt 2",
        city := some "Metropolis", zip_code := some "1000",
        phone_number := some "+123", user_type := some "pension",
        date_of_birth := some "1950-01-01", national_id := some "NID",
        school_name := some "Uni", school_id := some "U-1",
        student_proof_url := some ["p.png"], school_expiry := some "2030-01-01",
        national_id_proof_url := some ["n.png"] }
      "u@x.com" _ rfl).2.2.2.1).1 "jane@x.com" (by decide) rfl
